import Mathlib

/-
  Verification of the endpoint-pool lifecycle manager of aiohttp-ip-rotator
  (src/aiohttp_ip_rotator/rotator.py) against its natural-language
  specification.  The Python code is shallowly embedded: string operations
  are modelled on the underlying character lists, dictionaries as
  association lists, the random draws of random.choice and random.randint
  as explicit seed parameters, and the asynchronous control-plane calls as
  explicit oracles recorded in a state value.  Exceptions that escape a
  function are modelled with Except or with an explicit outcome
  constructor.
-/

set_option maxHeartbeats 1000000
set_option maxRecDepth 10000

namespace RCS

/-- Python s.startswith(p), computed on the underlying character list. -/
def pyStartsWith (s p : String) : Bool := p.data.isPrefixOf s.data

/-- Python s.endswith(p), computed on the underlying character list. -/
def pyEndsWith (s p : String) : Bool := p.data.isSuffixOf s.data

/-- Python s[:-1]. -/
def pyDropLast (s : String) : String := String.mk s.data.dropLast

/-- Split a character list at the first occurrence of the separator sep,
returning the parts before and after it, or none when sep does not occur.
This is the character-list core of Python s.split(sep, 1). -/
def splitOnceData (sep : List Char) : List Char → Option (List Char × List Char)
  | [] => none
  | c :: rest =>
    if sep.isPrefixOf (c :: rest) then some ([], (c :: rest).drop sep.length)
    else
      match splitOnceData sep rest with
      | none => none
      | some p => some (c :: p.1, p.2)

/-- Python s.split(sep, 1): when sep occurs in s, the parts before and after
its first occurrence; none models the one-element result whose index 1
raises IndexError. -/
def splitOnce (s sep : String) : Option (String × String) :=
  (splitOnceData sep.data s.data).map (fun p => (String.mk p.1, String.mk p.2))

/-- Python truthiness of the expression x or d for an optional string x:
None and the empty string are falsy. -/
def pyOrStr (o : Option String) (d : String) : String :=
  match o with
  | none => d
  | some s => if s = "" then d else s

/-- Caller-visible header dictionaries, modelled as association lists. -/
abbrev Headers := List (String × String)

/-- Python headers.get(k): first binding of key k. -/
def hget : Headers → String → Option String
  | [], _ => none
  | kv :: t, k => if kv.1 = k then some kv.2 else hget t k

/-- Python headers.pop(k, None): every binding of key k removed. -/
def hpop : Headers → String → Headers
  | [], _ => []
  | kv :: t, k => if kv.1 = k then hpop t k else kv :: hpop t k

/-- Python headers[k] = v, as a lookup-equivalent association-list update. -/
def hset (h : Headers) (k v : String) : Headers := hpop h k ++ [(k, v)]

/-- Python random.randint a b, derandomized: the draw for a given seed is
a + seed % (b - a + 1), which ranges uniformly over [a, b] when the seed is
uniform. -/
def randint (a b seed : Nat) : Nat := a + seed % (b - a + 1)

/-- socket.inet_ntoa (struct.pack ">I" n): decimal dotted-quad rendering of
the four big-endian bytes of the 32-bit value n. -/
def inet_ntoa (n : Nat) : String :=
  Nat.repr (n / 16777216 % 256) ++ "." ++ Nat.repr (n / 65536 % 256) ++ "."
    ++ Nat.repr (n / 256 % 256) ++ "." ++ Nat.repr (n % 256)

/-- The pool state held by a RotatingClientSession object: the fields of
self that the lifecycle operations read or write. -/
structure Pool where
  target : String
  host_header : String
  name : String
  endpoints : List String
  active : Bool
  deriving DecidableEq

/-- The ValueError raised by RotatingClientSession.__init__ on a bad
target scheme. -/
inductive InitError where
  | invalidSchema
  deriving DecidableEq

/-- Host part of the stored target: self.target.split("://", 1)[1].split("/", 1)[0],
the text after :// and before the first subsequent slash. -/
def hostOf (t : String) : String :=
  match splitOnce t "://" with
  | none => ""
  | some p =>
    match splitOnce p.2 "/" with
    | none => p.2
    | some q => q.1

/-- RotatingClientSession.__init__ restricted to the fields the claims are
about: one trailing slash is stripped from the target, a ValueError is
raised unless the target starts with http:// or https://, the host header
defaults to the host of the target, and the pool starts with no endpoints
and inactive. -/
def mkSession (target : String) (host_header : Option String) : Except InitError Pool :=
  let t := if pyEndsWith target "/" then pyDropLast target else target
  if pyStartsWith target "http://" = false ∧ pyStartsWith target "https://" = false then
    Except.error InitError.invalidSchema
  else
    Except.ok
      { target := t
        host_header := pyOrStr host_header (hostOf t)
        name := "IP Rotator for " ++ t
        endpoints := []
        active := false }

/-- The exceptions RotatingClientSession.request raises before delegating. -/
inductive ReqError where
  | poolNotStarted
  | invalidUrl
  deriving DecidableEq

/-- The request delegated to the underlying HTTP client: method, rewritten
URL and rewritten headers. -/
structure OutRequest where
  method : String
  url : String
  headers : Headers
  deriving DecidableEq

/-- Python random.choice l, derandomized: the element at index seed modulo
the length of l. -/
def choicePy (l : List String) (seed : Nat) : String := l.getD (seed % l.length) ""

/-- The path extraction of RotatingClientSession.request:
url.split("://", 1)[1].split("/", 1)[1], with an IndexError at either
subscript giving the empty string. -/
def pathFromUrl (url : String) : String :=
  match splitOnce url "://" with
  | none => ""
  | some p =>
    match splitOnce p.2 "/" with
    | none => ""
    | some q => q.2

/-- RotatingClientSession.request: fail when the pool has no endpoints,
fail on a URL without an http or https scheme, pick an endpoint, rewrite
the URL onto it under the fixed stage segment, remove the caller-supplied
X-Forwarded-For binding, set X-Host, set X-Forwarded-Header, and delegate.
The seed k drives random.choice and the seed r drives random.randint. -/
def request (p : Pool) (method url : String) (headers? : Option Headers) (k r : Nat) :
    Except ReqError OutRequest :=
  if p.endpoints.length = 0 then Except.error ReqError.poolNotStarted
  else if pyStartsWith url "http://" = false ∧ pyStartsWith url "https://" = false then
    Except.error ReqError.invalidUrl
  else
    let endpoint := choicePy p.endpoints k
    let path := pathFromUrl url
    let outUrl := "https://" ++ endpoint ++ "/proxy-stage/" ++ path
    let headers0 := headers?.getD []
    let headers1 := hpop headers0 "X-Forwarded-For"
    let headers2 := hset headers1 "X-Host" p.host_header
    let headers3 := hset headers2 "X-Forwarded-Header"
        (pyOrStr (hget headers2 "X-Forwarded-For") (inet_ntoa (randint 1 4294967295 r)))
    Except.ok { method := method, url := outUrl, headers := headers3 }

/-- One iteration of the result-consumption loop of
RotatingClientSession.start, on one completed task result: a None result
is dropped, an endpoint is appended and the active flag is raised if it
was not yet set. -/
def startStep (p : Pool) (r : Option String) : Pool :=
  match r with
  | none => p
  | some e =>
    let p' := { p with endpoints := p.endpoints ++ [e] }
    if p'.active = false then { p' with active := true } else p'

/-- RotatingClientSession.start consuming the per-region task results in
completion order: the given list is that completion order. -/
def runStart (p : Pool) : List (Option String) → Pool
  | [] => p
  | r :: rs => runStart (startStep p r) rs

/-- One remote rest API as listed by the control plane: its id and name. -/
structure Api where
  id : String
  name : String
  deriving DecidableEq

/-- RotatingClientSession._clear_region_apis over one region, given which
delete calls succeed: the surviving apis of the region.  An api survives
unless it is targeted (matching name, or any name under force) and its
delete call succeeds; a failed delete is absorbed. -/
def clear_region_apis (poolName : String) (force : Bool) (del : String → Bool)
    (apis : List Api) : List Api :=
  apis.filter (fun a => !((force || a.name == poolName) && del a.id))

/-- RotatingClientSession.close: run the per-region teardown over the
remote world, close the underlying session, and set active to False.  The
endpoints field of the pool is not touched by close. -/
def close (p : Pool) (clear_all : Bool) (del : String → String → Bool)
    (world : List (String × List Api)) : Pool × List (String × List Api) :=
  ({ p with active := false },
   world.map (fun rg => (rg.1, clear_region_apis p.name clear_all (del rg.1) rg.2)))

/-- Outcome of one control-plane call once the rate limiting recorded
separately is over: success, a ClientError whose code is not
TooManyRequestsException, or an EndpointConnectionError. -/
inductive FinalRes (α : Type) where
  | ok (a : α)
  | clientErr
  | connErr
  deriving DecidableEq

/-- The control-plane state and call oracle of one region: the existing
apis, whether the listing calls fail, how many times the create call
answers TooManyRequestsException before settling on createRes, and the
outcomes of the post-creation setup calls. -/
structure CP where
  apis : List Api
  listFails : Bool
  createRL : Nat
  createRes : FinalRes String
  getResourcesRes : FinalRes String
  createResourceRes : FinalRes String
  configureRes : FinalRes Unit
  deriving DecidableEq

/-- RotatingClientSession._get_apis: a listing failure (ClientError or
EndpointConnectionError) is absorbed and yields the empty list. -/
def get_apis (cp : CP) : List Api := if cp.listFails then [] else cp.apis

/-- Result of one _create_api call: None, an endpoint address, or an
exception raised past the function. -/
inductive ProvisionOutcome where
  | absent
  | endpoint (addr : String)
  | raised
  deriving DecidableEq

/-- One _create_api run: its outcome, the total seconds slept in
rate-limit backoff, and the control-plane state it leaves behind. -/
structure ProvisionRun where
  res : ProvisionOutcome
  delay : Nat
  cp : CP
  deriving DecidableEq

/-- The address format of lines 155 and 176 of rotator.py. -/
def endpoint_address (apiId region : String) : String :=
  apiId ++ ".execute-api." ++ region ++ ".amazonaws.com"

/-- The discovery loop of _create_api: when force is not set, the first
listed api whose name starts with the pool name. -/
def discover (poolName : String) (force : Bool) (cp : CP) : Option Api :=
  if force then none else (get_apis cp).find? (fun a => pyStartsWith a.name poolName)

/-- The creation part of _create_api once the rate limiting is over:
create_rest_api returns None on ClientError or EndpointConnectionError;
on success the api is recorded remotely, and get_resources,
create_resource and _configure_api run outside the try block, so any
failure there raises past the function. -/
def create_attempt (poolName region : String) (cp : CP) : ProvisionRun :=
  match cp.createRes with
  | FinalRes.clientErr => { res := ProvisionOutcome.absent, delay := 0, cp := cp }
  | FinalRes.connErr => { res := ProvisionOutcome.absent, delay := 0, cp := cp }
  | FinalRes.ok apiId =>
    let cp' : CP := { cp with apis := cp.apis ++ [{ id := apiId, name := poolName }] }
    match cp.getResourcesRes with
    | FinalRes.ok _ =>
      match cp.createResourceRes with
      | FinalRes.ok _ =>
        match cp.configureRes with
        | FinalRes.ok _ =>
          { res := ProvisionOutcome.endpoint (endpoint_address apiId region), delay := 0, cp := cp' }
        | _ => { res := ProvisionOutcome.raised, delay := 0, cp := cp' }
      | _ => { res := ProvisionOutcome.raised, delay := 0, cp := cp' }
    | _ => { res := ProvisionOutcome.raised, delay := 0, cp := cp' }

/-- RotatingClientSession._create_api with the create call still rate
limited the given number of times: list and possibly discover, attempt the
creation, and on a TooManyRequestsException sleep 3 seconds and retry the
whole operation. -/
def create_api_rec (poolName region : String) (force : Bool) (cp : CP) : Nat → ProvisionRun
  | 0 =>
    match discover poolName force cp with
    | some a =>
      { res := ProvisionOutcome.endpoint (endpoint_address a.id region), delay := 0, cp := cp }
    | none => create_attempt poolName region cp
  | Nat.succ n =>
    match discover poolName force cp with
    | some a =>
      { res := ProvisionOutcome.endpoint (endpoint_address a.id region), delay := 0, cp := cp }
    | none =>
      let r := create_api_rec poolName region force cp n
      { res := r.res, delay := r.delay + 3, cp := r.cp }

/-- RotatingClientSession._create_api against a control plane that answers
TooManyRequestsException to the create call cp.createRL times and then
settles on cp.createRes. -/
def create_api (poolName region : String) (force : Bool) (cp : CP) : ProvisionRun :=
  create_api_rec poolName region force cp cp.createRL

/-- Read one header of the delegated request, when one was delegated. -/
def reqHeader (x : Except ReqError OutRequest) (k : String) : Option String :=
  match x with
  | Except.ok o => hget o.headers k
  | Except.error _ => none

/-- Read the URL of the delegated request, when one was delegated. -/
def reqUrl : Except ReqError OutRequest → Option String
  | Except.ok o => some o.url
  | Except.error _ => none

/-- Read the stored target of a successfully constructed session. -/
def targetOf : Except InitError Pool → Option String
  | Except.ok p => some p.target
  | Except.error _ => none

/-- Decimal value of a digit string. -/
def digitsVal (l : List Char) : Nat := l.foldl (fun acc c => acc * 10 + (c.toNat - 48)) 0

/-- One octet of a dotted quad: nonempty, all decimal digits, value at most 255. -/
def okOctet (l : List Char) : Bool := !l.isEmpty && l.all Char.isDigit && digitsVal l ≤ 255

/-- Split a character list at every dot. -/
def splitDots : List Char → List (List Char)
  | [] => [[]]
  | c :: rest =>
    if c = '.' then [] :: splitDots rest
    else
      match splitDots rest with
      | [] => [[c]]
      | h :: t => (c :: h) :: t

/-- Dotted-quad IPv4 syntax: four dot-separated decimal octets. -/
def isDottedQuad (s : String) : Bool :=
  match splitDots s.data with
  | [a, b, c, d] => okOctet a && okOctet b && okOctet c && okOctet d
  | _ => false

/-- A freshly constructed pool for the target https://t, before provisioning. -/
def pool0 : Pool :=
  { target := "https://t", host_header := "t", name := "IP Rotator for https://t"
    endpoints := [], active := false }

/-- The same pool after one endpoint was provisioned. -/
def poolA : Pool := { pool0 with endpoints := ["e1"], active := true }

/-- A one-region world holding one api owned by the pool. -/
def worldA : List (String × List Api) :=
  [("us-east-1", [{ id := "a1", name := "IP Rotator for https://t" }])]

/-- A region whose create call succeeds but whose get_resources call fails
with a ClientError that is not a rate limit. -/
def cpSetupFail : CP :=
  { apis := [], listFails := false, createRL := 0, createRes := FinalRes.ok "a1"
    getResourcesRes := FinalRes.clientErr, createResourceRes := FinalRes.ok "r1"
    configureRes := FinalRes.ok () }

/-- A region whose create call fails with a ClientError that is not a rate
limit. -/
def cpCreateFail : CP :=
  { apis := [], listFails := false, createRL := 0, createRes := FinalRes.clientErr
    getResourcesRes := FinalRes.ok "r0", createResourceRes := FinalRes.ok "r1"
    configureRes := FinalRes.ok () }

/-- A region that rate limits the create call twice and then provisions
cleanly. -/
def cpRateLimited : CP :=
  { apis := [], listFails := false, createRL := 2, createRes := FinalRes.ok "a1"
    getResourcesRes := FinalRes.ok "r0", createResourceRes := FinalRes.ok "r1"
    configureRes := FinalRes.ok () }

/-- A region that already holds an api named after the pool. -/
def cpDiscover : CP :=
  { apis := [{ id := "a0", name := "IP Rotator for https://t" }], listFails := false
    createRL := 5, createRes := FinalRes.clientErr, getResourcesRes := FinalRes.clientErr
    createResourceRes := FinalRes.clientErr, configureRes := FinalRes.clientErr }

/-- Looking up a key just popped yields nothing. -/
theorem hget_hpop_self (h : Headers) (k : String) : hget (hpop h k) k = none := by
  induction h with
  | nil => rfl
  | cons kv t ih =>
    by_cases hk : kv.1 = k
    · simp [hpop, hk, ih]
    · simp [hpop, hget, hk, ih]

/-- Header lookup distributes over concatenation. -/
theorem hget_append (h₁ h₂ : Headers) (k : String) :
    hget (h₁ ++ h₂) k = match hget h₁ k with | some v => some v | none => hget h₂ k := by
  induction h₁ with
  | nil => rfl
  | cons kv t ih =>
    by_cases hk : kv.1 = k
    · simp [hget, hk]
    · simp [hget, hk, ih]

/-- Looking up a key just set yields the set value. -/
theorem hget_hset_self (h : Headers) (k v : String) : hget (hset h k v) k = some v := by
  rw [hset, hget_append, hget_hpop_self]
  simp [hget]

/-- Popping a different key does not change a lookup. -/
theorem hget_hpop_ne (h : Headers) (k k' : String) (hne : k ≠ k') :
    hget (hpop h k') k = hget h k := by
  induction h with
  | nil => rfl
  | cons kv t ih =>
    by_cases hk : kv.1 = k'
    · have hk2 : ¬(kv.1 = k) := by rw [hk]; exact fun e => hne e.symm
      rw [hpop, if_pos hk, ih, hget, if_neg hk2]
    · rw [hpop, if_neg hk, hget, hget]
      by_cases hk2 : kv.1 = k
      · rw [if_pos hk2, if_pos hk2]
      · rw [if_neg hk2, if_neg hk2, ih]

/-- Setting a different key does not change a lookup. -/
theorem hget_hset_ne (h : Headers) (k k' v : String) (hne : k ≠ k') :
    hget (hset h k' v) k = hget h k := by
  rw [hset, hget_append, hget_hpop_ne h k k' hne]
  cases hx : hget h k with
  | some v' => rfl
  | none => simp [hget, Ne.symm hne]

/-- Normal form of a delegated request: when the pool has an endpoint and
the URL scheme is accepted, request delegates with the rewritten URL and
the synthesized forwarded-for spoof value, whatever the caller headers
held. -/
theorem request_fwd (p : Pool) (method url : String) (headers? : Option Headers) (k r : Nat)
    (hne : p.endpoints.length ≠ 0)
    (hurl : pyStartsWith url "http://" = true ∨ pyStartsWith url "https://" = true) :
    request p method url headers? k r = Except.ok
      { method := method
        url := "https://" ++ choicePy p.endpoints k ++ "/proxy-stage/" ++ pathFromUrl url
        headers := hset (hset (hpop (headers?.getD []) "X-Forwarded-For") "X-Host" p.host_header)
          "X-Forwarded-Header" (inet_ntoa (randint 1 4294967295 r)) } := by
  have hc : ¬(pyStartsWith url "http://" = false ∧ pyStartsWith url "https://" = false) := by
    rcases hurl with h | h <;> simp [h]
  have h2 : hget (hset (hpop (headers?.getD []) "X-Forwarded-For") "X-Host" p.host_header)
      "X-Forwarded-For" = none := by
    rw [hget_hset_ne _ _ _ _ (by decide)]
    exact hget_hpop_self _ _
  simp only [request, if_neg hne, if_neg hc, h2, pyOrStr]

/-- Appending an endpoint always leaves the active flag raised. -/
theorem startStep_active_some (p : Pool) (e : String) : (startStep p (some e)).active = true := by
  simp only [startStep]
  cases hp : p.active <;> simp [hp]

/-- The active flag after a run is its old value joined with whether any
result carried an endpoint. -/
theorem runStart_active (p : Pool) (l : List (Option String)) :
    (runStart p l).active = (p.active || l.any Option.isSome) := by
  induction l generalizing p with
  | nil => simp [runStart]
  | cons r rs ih =>
    cases r with
    | none => simp [runStart, startStep, ih]
    | some e =>
      rw [runStart, ih, startStep_active_some]
      simp

/-- One step appends exactly the carried endpoint, if any. -/
theorem startStep_endpoints (p : Pool) (r : Option String) :
    (startStep p r).endpoints = p.endpoints ++ r.toList := by
  cases r with
  | none => simp [startStep]
  | some e =>
    simp only [startStep, Option.toList]
    split <;> rfl

/-- A run appends exactly the carried endpoints, in completion order. -/
theorem runStart_endpoints (p : Pool) (l : List (Option String)) :
    (runStart p l).endpoints = p.endpoints ++ l.filterMap id := by
  induction l generalizing p with
  | nil => simp [runStart]
  | cons r rs ih =>
    rw [runStart, ih, startStep_endpoints]
    cases r <;> simp

/-- C4: over any completion order of per-region results, starting from an
inactive pool, the activation state after any prefix of the run equals
whether that prefix carried an endpoint — so it is false before the run,
flips false to true exactly once at the first non-Absent result, and stays
false when every region returns Absent — and the endpoint set of the full
run extends the endpoint set of the prefix, so the set only grows. -/
theorem C4_activation_monotone (p : Pool) (l₁ l₂ : List (Option String))
    (hactive : p.active = false) :
    ((runStart p (l₁ ++ l₂)).active = (l₁ ++ l₂).any Option.isSome) ∧
    ((runStart p l₁).active = l₁.any Option.isSome) ∧
    (∃ t, (runStart p (l₁ ++ l₂)).endpoints = (runStart p l₁).endpoints ++ t) := by
  refine ⟨?_, ?_, ⟨l₂.filterMap id, ?_⟩⟩
  · rw [runStart_active, hactive, Bool.false_or]
  · rw [runStart_active, hactive, Bool.false_or]
  · rw [runStart_endpoints, runStart_endpoints, List.filterMap_append, List.append_assoc]

/-- Witness for C4 at a concrete run: one Absent, one endpoint, then one
more endpoint appended by the suffix of the run. -/
theorem C4_activation_monotone_witness :
    ((runStart pool0 ([none, some "e1"] ++ [some "e2"])).active =
      ([none, some "e1"] ++ [some "e2"]).any Option.isSome) ∧
    ((runStart pool0 [none, some "e1"]).active = [none, some "e1"].any Option.isSome) ∧
    (∃ t, (runStart pool0 ([none, some "e1"] ++ [some "e2"])).endpoints =
      (runStart pool0 [none, some "e1"]).endpoints ++ t) :=
  C4_activation_monotone pool0 [none, some "e1"] [some "e2"] rfl

/-- C2 counterexample: a pool with one endpoint, torn down over a world in
which every deletion succeeds (the owned api is indeed removed remotely),
still holds its endpoint after close — the endpoint set is not cleared, so
the claim that it becomes empty is false. -/
theorem C2_counterexample :
    (close poolA false (fun _ _ => true) worldA).1.endpoints = ["e1"] ∧
    (close poolA false (fun _ _ => true) worldA).1.endpoints ≠ [] ∧
    (close poolA false (fun _ _ => true) worldA).2 = [("us-east-1", [])] := by
  decide

/-- C2 amended: after one teardown run completes, the activation state is
false regardless of how many remote deletions succeeded, and the endpoint
set is not cleared — it retains exactly its pre-teardown contents. -/
theorem C2_close_state (p : Pool) (clear_all : Bool) (del : String → String → Bool)
    (world : List (String × List Api)) :
    (close p clear_all del world).1.active = false ∧
    (close p clear_all del world).1.endpoints = p.endpoints :=
  ⟨rfl, rfl⟩

/-- C8: a routing call on a pool with no endpoints fails with the
pool-not-started usage error, whatever the URL, headers and seeds — the
check precedes URL validation, header handling and delegation, so nothing
else happens and no request is delegated. -/
theorem C8_not_started (p : Pool) (method url : String) (headers? : Option Headers) (k r : Nat)
    (hempty : p.endpoints = []) :
    request p method url headers? k r = Except.error ReqError.poolNotStarted := by
  simp [request, hempty]

/-- Witness for C8: even a malformed URL and caller headers produce only
the pool-not-started error on an unstarted pool. -/
theorem C8_not_started_witness :
    request pool0 "GET" "not a url" (some [("X-Forwarded-For", "9.9.9.9")]) 0 0 =
      Except.error ReqError.poolNotStarted :=
  C8_not_started pool0 "GET" "not a url" (some [("X-Forwarded-For", "9.9.9.9")]) 0 0 rfl

/-- C5: for every routing call with an accepted scheme and a non-empty
endpoint set, the outgoing URL is https, targets the chosen endpoint,
inserts the fixed stage segment, and carries the original path and query
unchanged. -/
theorem C5_url_rewrite (p : Pool) (method url : String) (headers? : Option Headers) (k r : Nat)
    (hne : p.endpoints.length ≠ 0)
    (hurl : pyStartsWith url "http://" = true ∨ pyStartsWith url "https://" = true) :
    reqUrl (request p method url headers? k r) =
      some ("https://" ++ choicePy p.endpoints k ++ "/proxy-stage/" ++ pathFromUrl url) := by
  rw [request_fwd p method url headers? k r hne hurl]
  rfl

/-- Witness for C5: GET https://origin/a/b?x=1 through endpoint e1 becomes
GET https://e1/proxy-stage/a/b?x=1. -/
theorem C5_url_rewrite_witness :
    reqUrl (request poolA "GET" "https://origin/a/b?x=1" none 0 0) =
      some "https://e1/proxy-stage/a/b?x=1" := by
  have h := C5_url_rewrite poolA "GET" "https://origin/a/b?x=1" none 0 0 (by decide)
    (Or.inr (by decide))
  exact h.trans (by decide)

/-- C3 counterexample: the caller supplies X-Forwarded-For 9.9.9.9, yet the
outgoing X-Forwarded-Header is the synthesized random address 0.0.0.1, not
the caller value — request pops the caller binding before reading it. -/
theorem C3_counterexample :
    reqHeader (request poolA "GET" "https://o/a" (some [("X-Forwarded-For", "9.9.9.9")]) 0 0)
      "X-Forwarded-Header" = some "0.0.0.1" ∧
    reqHeader (request poolA "GET" "https://o/a" (some [("X-Forwarded-For", "9.9.9.9")]) 0 0)
      "X-Forwarded-Header" ≠ some "9.9.9.9" := by
  decide

/-- C3 amended: the caller-supplied forwarded-for binding is removed before
the spoof header is computed, so the outgoing X-Forwarded-Header is always
the synthesized random IPv4 value, never the caller-supplied one (whenever
the two differ). -/
theorem C3_always_synthesized (p : Pool) (method url : String) (h : Headers) (v : String)
    (k r : Nat) (hne : p.endpoints.length ≠ 0)
    (hurl : pyStartsWith url "http://" = true ∨ pyStartsWith url "https://" = true)
    (hxff : hget h "X-Forwarded-For" = some v) :
    reqHeader (request p method url (some h) k r) "X-Forwarded-Header" =
      some (inet_ntoa (randint 1 4294967295 r)) ∧
    (v ≠ inet_ntoa (randint 1 4294967295 r) →
      reqHeader (request p method url (some h) k r) "X-Forwarded-Header" ≠ some v) := by
  have hmain : reqHeader (request p method url (some h) k r) "X-Forwarded-Header" =
      some (inet_ntoa (randint 1 4294967295 r)) := by
    rw [request_fwd p method url (some h) k r hne hurl]
    simp only [reqHeader]
    rw [hget_hset_self]
  refine ⟨hmain, fun hv heq => hv ?_⟩
  rw [hmain] at heq
  exact (Option.some.inj heq).symm

/-- Witness for C3 amended: with the random seed 0 the synthesized value is
0.0.0.1 and the caller value 9.9.9.9 is not reused. -/
theorem C3_always_synthesized_witness :
    reqHeader (request poolA "GET" "https://o/a" (some [("X-Forwarded-For", "9.9.9.9")]) 0 0)
      "X-Forwarded-Header" ≠ some "9.9.9.9" :=
  (C3_always_synthesized poolA "GET" "https://o/a" [("X-Forwarded-For", "9.9.9.9")] "9.9.9.9"
    0 0 (by decide) (Or.inr (by decide)) (by decide)).2 (by decide)

/-- When discovery finds a matching api, _create_api returns its address at
once, with no delay and no control-plane mutation, whatever the pending
rate limiting. -/
theorem create_api_rec_discovered (poolName region : String) (force : Bool) (cp : CP) (a : Api)
    (h : discover poolName force cp = some a) (n : Nat) :
    create_api_rec poolName region force cp n =
      { res := ProvisionOutcome.endpoint (endpoint_address a.id region), delay := 0, cp := cp } := by
  cases n <;> simp [create_api_rec, h]

/-- A create_attempt never sleeps. -/
theorem create_attempt_delay (poolName region : String) (cp : CP) :
    (create_attempt poolName region cp).delay = 0 := by
  obtain ⟨apis, lf, rl, cres, gres, crres, cfres⟩ := cp
  cases cres with
  | clientErr => rfl
  | connErr => rfl
  | ok apiId =>
    cases gres <;> cases crres <;> cases cfres <;> rfl

/-- When discovery finds nothing, _create_api behaves as one create_attempt
after one three-second sleep per pending rate limit. -/
theorem create_api_rec_undiscovered (poolName region : String) (force : Bool) (cp : CP)
    (h : discover poolName force cp = none) (n : Nat) :
    (create_api_rec poolName region force cp n).res = (create_attempt poolName region cp).res ∧
    (create_api_rec poolName region force cp n).cp = (create_attempt poolName region cp).cp ∧
    (create_api_rec poolName region force cp n).delay = 3 * n := by
  induction n with
  | zero =>
    refine ⟨?_, ?_, ?_⟩ <;> simp [create_api_rec, h, create_attempt_delay]
  | succ m ih =>
    refine ⟨?_, ?_, ?_⟩ <;> simp [create_api_rec, h]
    · exact ih.1
    · exact ih.2.1
    · rw [ih.2.2]; ring

/-- A create_attempt that yields an endpoint comes from a successful create
call followed by successful setup calls, records the created api remotely
under the pool name, and yields the address of the created api. -/
theorem create_attempt_endpoint (poolName region : String) (cp : CP) (e : String)
    (h : (create_attempt poolName region cp).res = ProvisionOutcome.endpoint e) :
    ∃ apiId, cp.createRes = FinalRes.ok apiId ∧ e = endpoint_address apiId region ∧
      (create_attempt poolName region cp).cp.apis =
        cp.apis ++ [{ id := apiId, name := poolName }] ∧
      (create_attempt poolName region cp).cp.listFails = cp.listFails := by
  obtain ⟨apis, lf, rl, cres, gres, crres, cfres⟩ := cp
  cases cres with
  | clientErr => simp [create_attempt] at h
  | connErr => simp [create_attempt] at h
  | ok apiId =>
    cases gres with
    | clientErr => simp [create_attempt] at h
    | connErr => simp [create_attempt] at h
    | ok x =>
      cases crres with
      | clientErr => simp [create_attempt] at h
      | connErr => simp [create_attempt] at h
      | ok y =>
        cases cfres with
        | clientErr => simp [create_attempt] at h
        | connErr => simp [create_attempt] at h
        | ok z =>
          simp [create_attempt] at h
          exact ⟨apiId, rfl, h.symm, rfl, rfl⟩

/-- C1 counterexample: a region whose create call succeeds but whose
get_resources call then fails with a non-rate-limit ClientError makes
_create_api raise the error past the Provisioner boundary instead of
returning Absent — the try block ends before the resource setup stage. -/
theorem C1_counterexample :
    (create_api "IP Rotator for https://t" "us-east-1" false cpSetupFail).res =
      ProvisionOutcome.raised ∧
    (create_api "IP Rotator for https://t" "us-east-1" false cpSetupFail).res ≠
      ProvisionOutcome.absent := by
  decide

/-- C1 amended: a connectivity failure or a non-rate-limit client error of
the listing stage is absorbed inside _get_apis, and one of the creation
call makes the provisioning call return Absent rather than raise — but
only for those stages; a failure during resource setup, configuration or
deployment raises past the boundary (see the counterexample). -/
theorem C1_create_failure_absent (poolName region : String) (force : Bool) (cp : CP)
    (h : cp.createRes = FinalRes.clientErr ∨ cp.createRes = FinalRes.connErr) :
    (create_api poolName region force cp).res ≠ ProvisionOutcome.raised ∧
    (discover poolName force cp = none →
      (create_api poolName region force cp).res = ProvisionOutcome.absent) := by
  unfold create_api
  cases hd : discover poolName force cp with
  | some a =>
    rw [create_api_rec_discovered _ _ _ _ _ hd]
    exact ⟨by simp, fun hnone => absurd hnone (by simp)⟩
  | none =>
    have hu := create_api_rec_undiscovered poolName region force cp hd cp.createRL
    have habs : (create_attempt poolName region cp).res = ProvisionOutcome.absent := by
      unfold create_attempt
      rcases h with h | h <;> rw [h]
    rw [hu.1, habs]
    exact ⟨by simp, fun _ => rfl⟩

/-- Witness for C1 amended: a create call failing with a non-rate-limit
client error yields Absent. -/
theorem C1_create_failure_absent_witness :
    (create_api "IP Rotator for https://t" "us-east-1" false cpCreateFail).res =
      ProvisionOutcome.absent :=
  (C1_create_failure_absent "IP Rotator for https://t" "us-east-1" false cpCreateFail
    (Or.inl rfl)).2 rfl

/-- C6: against a control plane that answers TooManyRequestsException to
the create call N times and then provisions cleanly, the provisioning call
terminates, returns the endpoint of the created api, and has slept exactly
3 seconds per rate-limit occurrence, retrying the whole list-or-create
operation each time. -/
theorem C6_rate_limit_retry (poolName region apiId x y : String) (force : Bool) (cp : CP)
    (hdisc : discover poolName force cp = none)
    (hok : cp.createRes = FinalRes.ok apiId)
    (hgr : cp.getResourcesRes = FinalRes.ok x)
    (hcr : cp.createResourceRes = FinalRes.ok y)
    (hcf : cp.configureRes = FinalRes.ok ()) :
    (create_api poolName region force cp).res =
      ProvisionOutcome.endpoint (endpoint_address apiId region) ∧
    (create_api poolName region force cp).delay = 3 * cp.createRL := by
  have hu := create_api_rec_undiscovered poolName region force cp hdisc cp.createRL
  unfold create_api
  refine ⟨?_, hu.2.2⟩
  rw [hu.1]
  unfold create_attempt
  rw [hok, hgr, hcr, hcf]

/-- Witness for C6: two rate limits, then success — six seconds of backoff
and the created endpoint. -/
theorem C6_rate_limit_retry_witness :
    (create_api "IP Rotator for https://t" "us-east-1" false cpRateLimited).res =
      ProvisionOutcome.endpoint (endpoint_address "a1" "us-east-1") ∧
    (create_api "IP Rotator for https://t" "us-east-1" false cpRateLimited).delay = 3 * 2 :=
  C6_rate_limit_retry "IP Rotator for https://t" "us-east-1" "a1" "r0" "r1" false cpRateLimited
    rfl rfl rfl rfl rfl

/-- A string is a prefix of itself. -/
theorem pyStartsWith_self (s : String) : pyStartsWith s s = true :=
  List.isPrefixOf_iff_prefix.mpr (List.prefix_refl _)

/-- C7: when a matching api already exists in a region and listing works, a
force=false provisioning run returns the address of the first listed match
and leaves the control plane unchanged — no creation, no reconfiguration;
and whenever a force=false run returns an endpoint, running it again
returns the same endpoint (idempotence via discovery-before-create). -/
theorem C7_discovery_idempotent (poolName region : String) (cp : CP) (a : Api) (e : String)
    (hlist : cp.listFails = false) :
    (cp.apis.find? (fun x => pyStartsWith x.name poolName) = some a →
      (create_api poolName region false cp).res =
        ProvisionOutcome.endpoint (endpoint_address a.id region) ∧
      (create_api poolName region false cp).cp = cp) ∧
    ((create_api poolName region false cp).res = ProvisionOutcome.endpoint e →
      (create_api poolName region false (create_api poolName region false cp).cp).res =
        ProvisionOutcome.endpoint e) := by
  constructor
  · intro hfind
    have hd : discover poolName false cp = some a := by
      simp [discover, get_apis, hlist, hfind]
    rw [create_api, create_api_rec_discovered _ _ _ _ _ hd]
    exact ⟨rfl, rfl⟩
  · intro h1
    cases hd : discover poolName false cp with
    | some a' =>
      have hrun : create_api poolName region false cp =
          { res := ProvisionOutcome.endpoint (endpoint_address a'.id region), delay := 0
            cp := cp } := by
        rw [create_api, create_api_rec_discovered _ _ _ _ _ hd]
      have hcp : (create_api poolName region false cp).cp = cp := by rw [hrun]
      rw [hrun] at h1
      rw [hcp, hrun]
      exact h1
    | none =>
      have hu := create_api_rec_undiscovered poolName region false cp hd cp.createRL
      rw [create_api, hu.1] at h1
      obtain ⟨apiId, hok, he, happis, hlf⟩ := create_attempt_endpoint poolName region cp e h1
      have hfind0 : cp.apis.find? (fun x => pyStartsWith x.name poolName) = none := by
        have h' := hd
        simp [discover, get_apis, hlist] at h'
        exact List.find?_eq_none.mpr (fun x hx => by simp [h' x hx])
      have hcpeq : (create_api poolName region false cp).cp =
          (create_attempt poolName region cp).cp := by
        rw [create_api]; exact hu.2.1
      have hlf2 : (create_api poolName region false cp).cp.listFails = false := by
        rw [hcpeq, hlf, hlist]
      have happis2 : (create_api poolName region false cp).cp.apis =
          cp.apis ++ [{ id := apiId, name := poolName }] := by
        rw [hcpeq, happis]
      have hd2 : discover poolName false (create_api poolName region false cp).cp =
          some { id := apiId, name := poolName } := by
        simp only [discover, get_apis, hlf2, happis2, Bool.false_eq_true, if_false]
        rw [List.find?_append, hfind0]
        simp [List.find?, pyStartsWith_self]
      rw [create_api, create_api_rec_discovered _ _ _ _ _ hd2, he]

/-- Witness for C7: a region already holding the api a0 named after the
pool yields the a0 endpoint on both of two successive force=false runs. -/
theorem C7_discovery_idempotent_witness :
    (create_api "IP Rotator for https://t" "us-east-1" false cpDiscover).res =
      ProvisionOutcome.endpoint (endpoint_address "a0" "us-east-1") ∧
    (create_api "IP Rotator for https://t" "us-east-1" false
        (create_api "IP Rotator for https://t" "us-east-1" false cpDiscover).cp).res =
      ProvisionOutcome.endpoint (endpoint_address "a0" "us-east-1") := by
  have h := C7_discovery_idempotent "IP Rotator for https://t" "us-east-1" cpDiscover
    { id := "a0", name := "IP Rotator for https://t" } (endpoint_address "a0" "us-east-1") rfl
  have h1 := h.1 (by decide)
  exact ⟨h1.1, h.2 h1.1⟩

/-- Dropping the final character of a list that ends in one slash but not
in two leaves a list that does not end in a slash. -/
theorem no_slash_after_strip (l : List Char)
    (h2 : List.isSuffixOf ['/', '/'] l = false) (h1 : List.isSuffixOf ['/'] l = true) :
    List.isSuffixOf ['/'] l.dropLast = false := by
  obtain ⟨t, ht⟩ := List.isSuffixOf_iff_suffix.mp h1
  subst ht
  rw [List.dropLast_concat]
  cases hb : List.isSuffixOf ['/'] t with
  | false => rfl
  | true =>
    exfalso
    obtain ⟨u, hu⟩ := List.isSuffixOf_iff_suffix.mp hb
    rw [← hu] at h2
    have hsuf : List.isSuffixOf ['/', '/'] (u ++ ['/'] ++ ['/']) = true :=
      List.isSuffixOf_iff_suffix.mpr ⟨u, by simp⟩
    rw [hsuf] at h2
    exact absurd h2 (by simp)

/-- C9: construction fails with the invalid-schema error exactly when the
target begins with neither accepted scheme; and — amended — only one
trailing slash is stripped, so when the input does not end in two slashes
the stored target never ends in a slash (an input ending in two or more
slashes keeps the surplus, see the counterexample). -/
theorem C9_scheme_and_slash (target : String) (hh : Option String)
    (hnn : pyEndsWith target "//" = false) :
    ((mkSession target hh = Except.error InitError.invalidSchema) ↔
      (pyStartsWith target "http://" = false ∧ pyStartsWith target "https://" = false)) ∧
    (∀ p, mkSession target hh = Except.ok p → pyEndsWith p.target "/" = false) := by
  constructor
  · constructor
    · intro he
      by_contra hc
      simp only [mkSession] at he
      rw [if_neg hc] at he
      exact Except.noConfusion he
    · intro hc
      simp only [mkSession]
      rw [if_pos hc]
  · intro p hp
    simp only [mkSession] at hp
    by_cases hc : pyStartsWith target "http://" = false ∧ pyStartsWith target "https://" = false
    · rw [if_pos hc] at hp
      exact Except.noConfusion hp
    · rw [if_neg hc] at hp
      have hp' := (Except.ok.inj hp).symm
      rw [hp']
      show pyEndsWith (if pyEndsWith target "/" then pyDropLast target else target) "/" = false
      by_cases hs : pyEndsWith target "/" = true
      · rw [if_pos hs]
        exact no_slash_after_strip target.data hnn hs
      · rw [if_neg hs]
        simpa using hs

/-- C9 counterexample: the target https://a// has an accepted scheme, so
construction succeeds, but only one trailing slash is stripped and the
stored target https://a/ still ends in a slash. -/
theorem C9_counterexample :
    targetOf (mkSession "https://a//" none) = some "https://a/" ∧
    pyEndsWith "https://a/" "/" = true := by
  decide

/-- Witness for C9 at a concrete target with one trailing slash: the
scheme test and the stripped stored target. -/
theorem C9_scheme_and_slash_witness :
    pyEndsWith "https://a/" "//" = false ∧
    (((mkSession "https://a/" none = Except.error InitError.invalidSchema) ↔
      (pyStartsWith "https://a/" "http://" = false ∧
        pyStartsWith "https://a/" "https://" = false)) ∧
    (∀ p, mkSession "https://a/" none = Except.ok p → pyEndsWith p.target "/" = false)) :=
  ⟨by decide, C9_scheme_and_slash "https://a/" none (by decide)⟩

/-- Octets up to 255 render as octet-shaped digit strings. -/
theorem repr_okOctet : ∀ n : Nat, n < 256 → okOctet (Nat.repr n).data = true := by decide

/-- Octets up to 255 render without a dot. -/
theorem repr_no_dot : ∀ n : Nat, n < 256 → ('.' ∉ (Nat.repr n).data) := by decide

/-- Rendering an octet up to 255 and reading the digits back is the
identity. -/
theorem repr_digitsVal : ∀ n : Nat, n < 256 → digitsVal (Nat.repr n).data = n := by decide

/-- Splitting a dot-free list at dots yields the list itself. -/
theorem splitDots_no_dot (l : List Char) (h : '.' ∉ l) : splitDots l = [l] := by
  induction l with
  | nil => rfl
  | cons c rest ih =>
    have hc : ¬(c = '.') := fun e => h (by rw [e]; exact List.mem_cons_self _ _)
    have hr : '.' ∉ rest := fun m => h (List.mem_cons_of_mem _ m)
    simp only [splitDots, if_neg hc]
    rw [ih hr]

/-- Splitting at dots peels off a leading dot-free chunk. -/
theorem splitDots_append (l r : List Char) (h : '.' ∉ l) :
    splitDots (l ++ '.' :: r) = l :: splitDots r := by
  induction l with
  | nil => simp [splitDots]
  | cons c cs ih =>
    have hc : ¬(c = '.') := fun e => h (by rw [e]; exact List.mem_cons_self _ _)
    have hcs : '.' ∉ cs := fun m => h (List.mem_cons_of_mem _ m)
    simp only [List.cons_append, splitDots, if_neg hc, List.append_eq]
    rw [ih hcs]

/-- The characters of a rendered address are the four rendered octets
separated by dots. -/
theorem inet_ntoa_data (n : Nat) :
    (inet_ntoa n).data =
      (Nat.repr (n / 16777216 % 256)).data ++ '.' ::
      ((Nat.repr (n / 65536 % 256)).data ++ '.' ::
      ((Nat.repr (n / 256 % 256)).data ++ '.' :: (Nat.repr (n % 256)).data)) := by
  simp only [inet_ntoa, String.data_append, List.append_assoc]
  rfl

/-- Splitting a rendered address at dots recovers the four rendered
octets. -/
theorem splitDots_inet_ntoa (n : Nat) :
    splitDots (inet_ntoa n).data =
      [(Nat.repr (n / 16777216 % 256)).data, (Nat.repr (n / 65536 % 256)).data,
       (Nat.repr (n / 256 % 256)).data, (Nat.repr (n % 256)).data] := by
  have h1 := repr_no_dot (n / 16777216 % 256) (Nat.mod_lt _ (by norm_num))
  have h2 := repr_no_dot (n / 65536 % 256) (Nat.mod_lt _ (by norm_num))
  have h3 := repr_no_dot (n / 256 % 256) (Nat.mod_lt _ (by norm_num))
  have h4 := repr_no_dot (n % 256) (Nat.mod_lt _ (by norm_num))
  rw [inet_ntoa_data, splitDots_append _ _ h1, splitDots_append _ _ h2,
    splitDots_append _ _ h3, splitDots_no_dot _ h4]

/-- Every rendered address matches dotted-quad IPv4 syntax. -/
theorem isDottedQuad_inet_ntoa (n : Nat) : isDottedQuad (inet_ntoa n) = true := by
  have h1 := repr_okOctet (n / 16777216 % 256) (Nat.mod_lt _ (by norm_num))
  have h2 := repr_okOctet (n / 65536 % 256) (Nat.mod_lt _ (by norm_num))
  have h3 := repr_okOctet (n / 256 % 256) (Nat.mod_lt _ (by norm_num))
  have h4 := repr_okOctet (n % 256) (Nat.mod_lt _ (by norm_num))
  simp only [isDottedQuad, splitDots_inet_ntoa]
  rw [h1, h2, h3, h4]
  rfl

/-- A nonzero 32-bit value never renders as 0.0.0.0. -/
theorem inet_ntoa_ne_zero (n : Nat) (h1 : 1 ≤ n) (h2 : n < 4294967296) :
    inet_ntoa n ≠ "0.0.0.0" := by
  intro he
  have hd := congrArg String.data he
  have hs := congrArg splitDots hd
  rw [splitDots_inet_ntoa] at hs
  have hz : splitDots ("0.0.0.0").data = [['0'], ['0'], ['0'], ['0']] := by decide
  rw [hz] at hs
  simp only [List.cons.injEq, and_true] at hs
  obtain ⟨e1, e2, e3, e4⟩ := hs
  have d0 : digitsVal ['0'] = 0 := by decide
  have v1 := repr_digitsVal (n / 16777216 % 256) (Nat.mod_lt _ (by norm_num))
  rw [e1, d0] at v1
  have v2 := repr_digitsVal (n / 65536 % 256) (Nat.mod_lt _ (by norm_num))
  rw [e2, d0] at v2
  have v3 := repr_digitsVal (n / 256 % 256) (Nat.mod_lt _ (by norm_num))
  rw [e3, d0] at v3
  have v4 := repr_digitsVal (n % 256) (Nat.mod_lt _ (by norm_num))
  rw [e4, d0] at v4
  omega

/-- C10: when the caller supplied no forwarded-for header, the outgoing
spoof value is the dotted-quad rendering of the randint draw, the draw
lies in [1, 4294967295], and the rendering always matches dotted-quad IPv4
syntax and is never 0.0.0.0 since the zero draw is excluded. -/
theorem C10_random_quad (p : Pool) (method url : String) (h : Headers) (k r : Nat)
    (hne : p.endpoints.length ≠ 0)
    (hurl : pyStartsWith url "http://" = true ∨ pyStartsWith url "https://" = true)
    (hnoxff : hget h "X-Forwarded-For" = none) :
    reqHeader (request p method url (some h) k r) "X-Forwarded-Header" =
      some (inet_ntoa (randint 1 4294967295 r)) ∧
    1 ≤ randint 1 4294967295 r ∧ randint 1 4294967295 r ≤ 4294967295 ∧
    isDottedQuad (inet_ntoa (randint 1 4294967295 r)) = true ∧
    inet_ntoa (randint 1 4294967295 r) ≠ "0.0.0.0" := by
  have hlo : 1 ≤ randint 1 4294967295 r := by unfold randint; omega
  have hhi : randint 1 4294967295 r ≤ 4294967295 := by unfold randint; omega
  refine ⟨?_, hlo, hhi, isDottedQuad_inet_ntoa _, inet_ntoa_ne_zero _ hlo (by omega)⟩
  rw [request_fwd p method url (some h) k r hne hurl]
  simp only [reqHeader]
  rw [hget_hset_self]

/-- Witness for C10 with the random seed 0: the synthesized value is
0.0.0.1, which is a dotted quad and not 0.0.0.0. -/
theorem C10_random_quad_witness :
    reqHeader (request poolA "GET" "https://o/a" (some []) 0 0) "X-Forwarded-Header" =
      some "0.0.0.1" ∧
    isDottedQuad "0.0.0.1" = true ∧ "0.0.0.1" ≠ "0.0.0.0" := by
  have h := C10_random_quad poolA "GET" "https://o/a" [] 0 0 (by decide) (Or.inr (by decide)) rfl
  have e : inet_ntoa (randint 1 4294967295 0) = "0.0.0.1" := by decide
  exact ⟨by rw [← e]; exact h.1, by rw [← e]; exact h.2.2.2.1, by rw [← e]; exact h.2.2.2.2⟩

end RCS
